import Mathlib

/-!
Verification of the Multi-source Content Dashboard (Tech Pulse).

This file is a shallow embedding, in Lean 4, of the aggregation controller and
normalization model implemented in `src/tech-pulse/src/App.jsx` (primary) and
`src/unnamed/part_000` (an earlier single-feed variant of the same dashboard).

Modelling conventions:
* JavaScript strings are Lean `String`s; an absent (`undefined`) payload field
  is modelled as `""`, which is sound for the code at hand because every use of
  such fields goes through JavaScript truthiness (`x || y`), and `undefined`
  and `""` are both falsy.
* The WHATWG `new URL(u)` constructor is abstracted to requiring an
  RFC-3986-style scheme prefix (letter followed by letters/digits/`+`/`-`/`.`
  and then `:`); the remainder of the URL is kept opaque.  Input trimming and
  component percent-encoding are not modelled.  `new URL(u)` throwing is
  modelled as the parser returning `none`.
* React state (`useState` plus functional `setState` updaters) is modelled as
  explicit state passing: the store is an association list updated in the order
  the updaters are queued, which is how React applies functional updaters.
* The event-loop concurrency of in-flight `fetch` calls is modelled as a small
  step machine: dispatching `loadColumn` performs its synchronous prefix (up
  to the first `await`) and records a pending request; a separate `resolveE`
  event delivers the adapter's outcome.  `AbortController` generations are
  modelled by a controller counter (`epoch`): `refreshAll` increments it, and
  a pending request whose captured signal belongs to a superseded controller
  is rejected (its `fetch` promise rejects with an abort error) instead of
  delivering its outcome.
-/

namespace TechPulse

/-! ## URL model (`safeUrl`, `hostFromUrl`; App.jsx lines 44-64, part_000 lines 46-53) -/

/-- Characters allowed in a URL scheme after the first letter (RFC 3986). -/
def schemeCharOk (c : Char) : Bool :=
  c.isAlphanum || c = '+' || c = '-' || c = '.'

/-- Split a character list at the first `':'`, requiring every character before
it to be a valid scheme character; `none` when no such split exists. -/
def splitScheme : List Char → Option (List Char × List Char)
  | [] => none
  | c :: cs =>
    if c = ':' then some ([], cs)
    else if schemeCharOk c then (splitScheme cs).map (fun p => (c :: p.1, p.2)) else none

/-- Parsed form of an absolute URL: the scheme and the (opaque) remainder. -/
structure ParsedUrl where
  scheme : List Char
  rest : List Char
  deriving Repr, DecidableEq

/-- Head of a character list is an ASCII/Unicode letter. -/
def headIsAlpha : List Char → Bool
  | [] => false
  | c :: _ => c.isAlpha

/-- Model of `new URL(u)`: succeeds exactly when the input starts with a valid
scheme followed by `':'`. -/
def parseUrl (u : String) : Option ParsedUrl :=
  match splitScheme u.toList with
  | none => none
  | some (sch, rest) => if headIsAlpha sch then some ⟨sch, rest⟩ else none

/-- Model of `URL.prototype.toString` on a parsed URL. -/
def urlToString (p : ParsedUrl) : String :=
  String.mk (p.scheme ++ ':' :: p.rest)

/-- `safeUrl` from App.jsx lines 58-64 (identical in part_000 lines 46-53):
`try { return new URL(u).toString(); } catch { return ""; }`. -/
def safeUrl (u : String) : String :=
  match parseUrl u with
  | some p => urlToString p
  | none => ""

/-- A string is a syntactically valid absolute URL when the URL parser accepts
it. -/
def validAbsUrl (s : String) : Bool :=
  (parseUrl s).isSome

/-- Strip a leading `"www."`, modelling `.replace(/^www\./, "")`. -/
def stripWww (s : String) : String :=
  if s.startsWith "www." then s.drop 4 else s

/-- Extract the host portion of the opaque remainder: the characters of an
`//`-authority up to the first `/`, `?` or `#`. -/
def hostChars : List Char → List Char
  | '/' :: '/' :: rest => rest.takeWhile (fun c => ¬ (c = '/' ∨ c = '?' ∨ c = '#'))
  | _ => []

/-- `hostFromUrl` from App.jsx lines 44-50: host of the parsed URL with a
leading `www.` removed, `""` when the URL does not parse. -/
def hostFromUrl (u : String) : String :=
  match parseUrl u with
  | none => ""
  | some p => stripWww (String.mk (hostChars p.rest))

/-! ## Text normalization (`clampText`; App.jsx lines 52-56) -/

/-- ASCII whitespace, modelling the `\s` character class on the payloads at
hand. -/
def isWsCh (c : Char) : Bool :=
  c = ' ' || c = '\t' || c = '\n' || c = '\r' || c = '\x0b' || c = '\x0c'

/-- Collapse whitespace runs into single spaces and trim the ends, modelling
`String(s).replace(/\s+/g, " ").trim()`. -/
def collapseWs (s : String) : String :=
  String.intercalate " " ((s.split isWsCh).filter (fun t => t ≠ ""))

/-- `clampText` from App.jsx lines 52-56: empty on a falsy input, otherwise
whitespace-collapsed and clamped to `max` characters, with a one-character
ellipsis when clamping occurs. -/
def clampText (s : String) (max : Nat) : String :=
  if s = "" then ""
  else
    let t := collapseWs s
    if t.length > max then t.take (max - 1) ++ "…" else t

/-- JavaScript `a || b` on strings (`undefined` is modelled as `""`). -/
def jsOr (a b : String) : String :=
  if a = "" then b else a

/-- Lower-case a string character-wise, modelling `toLowerCase()` on the
(essentially ASCII) data at hand. -/
def toLowerStr (s : String) : String :=
  String.mk (s.toList.map Char.toLower)

/-- Strip leading and trailing whitespace, modelling `String.prototype.trim`
on the (essentially ASCII) data at hand. -/
def trimJs (s : String) : String :=
  String.mk (((s.toList.dropWhile isWsCh).reverse.dropWhile isWsCh).reverse)

/-! ## Unified item schema (App.jsx adapters, lines 76-221) -/

/-- The normalized content record every source is mapped into.  The published
date is carried by the JS objects but is presentation-only (relative-time
labels); JS `Date` parsing is not modelled and the field is omitted. -/
structure Item where
  id : String := ""
  source : String := ""
  title : String := ""
  url : String := ""
  summary : String := ""
  score : Int := 0
  comments : Int := 0
  author : String := ""
  subreddit : String := ""
  imageUrl : String := ""
  host : String := ""
  tags : List String := []
  deriving Repr, DecidableEq

/-- Raw Hacker News (Algolia) hit, fields as read by `fetchHN`
(App.jsx lines 99-113). -/
structure RawHit where
  objectID : String := ""
  url : String := ""
  title : String := ""
  story_text : String := ""
  author : String := ""
  created_at : String := ""
  points : Option Int := none
  num_comments : Option Int := none
  deriving Repr

/-- Per-hit normalization performed by `fetchHN` (App.jsx lines 99-113). -/
def hnItemOfHit (h : RawHit) : Item :=
  let url := safeUrl (jsOr h.url
    (if h.objectID ≠ "" then "https://news.ycombinator.com/item?id=" ++ h.objectID else ""))
  { id := "hn_" ++ h.objectID
    source := "hn"
    title := jsOr h.title "(Untitled)"
    url := url
    summary := clampText h.story_text 140
    score := h.points.getD 0
    comments := h.num_comments.getD 0
    author := jsOr h.author ""
    host := hostFromUrl url }

/-- Raw Reddit post (`c.data`), fields as read by `fetchReddit`
(App.jsx lines 136-157).  `preview_image_url` stands for
`p.preview?.images?.[0]?.source?.url`, `""` when the chain is absent. -/
structure RawPost where
  id : String := ""
  title : String := ""
  url_overridden_by_dest : String := ""
  permalink : String := ""
  selftext : String := ""
  ups : Option Int := none
  num_comments : Option Int := none
  author : String := ""
  subreddit_name_prefixed : String := ""
  preview_image_url : String := ""
  deriving Repr

/-- Per-post normalization performed by `fetchReddit` (App.jsx lines 140-157). -/
def redditItemOfPost (p : RawPost) : Item :=
  let url := safeUrl (jsOr p.url_overridden_by_dest
    (if p.permalink ≠ "" then "https://www.reddit.com" ++ p.permalink else ""))
  let thumb := safeUrl (p.preview_image_url.replace "&amp;" "&")
  { id := "rd_" ++ p.id
    source := "reddit"
    title := jsOr p.title "(Untitled)"
    url := url
    summary := clampText p.selftext 160
    score := p.ups.getD 0
    comments := p.num_comments.getD 0
    author := jsOr p.author ""
    subreddit := jsOr p.subreddit_name_prefixed ""
    imageUrl := jsOr thumb ""
    host := hostFromUrl url }

/-- Raw NASA APOD response, fields as read by `fetchNASA`
(App.jsx lines 173-197). -/
structure RawApod where
  date : String := ""
  title : String := ""
  url : String := ""
  hdurl : String := ""
  media_type : String := ""
  explanation : String := ""
  copyright : String := ""
  deriving Repr

/-- Normalization performed by `fetchNASA` (App.jsx lines 175-196) for the
single item it returns. -/
def nasaItemOf (d : RawApod) : Item :=
  let url := safeUrl (jsOr d.url "")
  let hd := safeUrl (jsOr d.hdurl "")
  let bestImage := if d.media_type = "image" then jsOr hd url else ""
  { id := "nasa_" ++ jsOr d.date "apod"
    source := "nasa"
    title := jsOr d.title "Astronomy Picture of the Day"
    url := jsOr url "https://apod.nasa.gov/"
    summary := clampText d.explanation 240
    author := jsOr d.copyright "NASA"
    imageUrl := bestImage
    host := "api.nasa.gov" }

/-- Raw Quotable response, fields as read by `fetchQuote`
(App.jsx lines 202-221); `qid` stands for the upstream `_id` field. -/
structure RawQuote where
  qid : String := ""
  content : String := ""
  author : String := ""
  tags : Option (List String) := none
  deriving Repr

/-- Normalization performed by `fetchQuote` (App.jsx lines 203-220) for the
single item it returns. -/
def quoteItemOf (q : RawQuote) : Item :=
  { id := "quote_" ++ q.qid
    source := "quote"
    title := if q.author ≠ "" then "Quote by " ++ q.author else "Quote"
    url := ""
    summary := "“" ++ q.content ++ "”"
    author := jsOr q.author ""
    host := "quotable.io"
    tags := q.tags.getD [] }

/-- Both URL-valued fields of an item are either empty or syntactically valid
absolute URLs. -/
def urlFieldsOk (it : Item) : Prop :=
  (it.url = "" ∨ validAbsUrl it.url = true) ∧
  (it.imageUrl = "" ∨ validAbsUrl it.imageUrl = true)

/-! ### Roundtrip facts about the URL model -/

theorem splitScheme_sound : ∀ {l : List Char} {a b : List Char},
    splitScheme l = some (a, b) → (∀ c ∈ a, schemeCharOk c = true) ∧ l = a ++ ':' :: b := by
  intro l
  induction l with
  | nil => intro a b h; simp [splitScheme] at h
  | cons c cs ih =>
    intro a b h
    by_cases hc : c = ':'
    · simp [splitScheme, hc] at h
      obtain ⟨ha, hb⟩ := h
      subst ha; subst hb
      simp [hc]
    · by_cases hs : schemeCharOk c
      · simp [splitScheme, hc, hs] at h
        obtain ⟨p, hp, hcons⟩ := h
        obtain ⟨hchars, hl⟩ := ih (a := p) (b := b) hp
        subst hcons
        constructor
        · intro d hd
          rcases List.mem_cons.mp hd with rfl | hmem
          · exact hs
          · exact hchars d hmem
        · simp [hl]
      · simp [splitScheme, hc, hs] at h

theorem splitScheme_append (a b : List Char) (h : ∀ c ∈ a, schemeCharOk c = true) :
    splitScheme (a ++ ':' :: b) = some (a, b) := by
  induction a with
  | nil => simp [splitScheme]
  | cons c cs ih =>
    have hc : schemeCharOk c = true := h c (by simp)
    have hne : ¬ (c = ':') := by
      intro hcc
      subst hcc
      simp [schemeCharOk, Char.isAlphanum, Char.isAlpha, Char.isDigit] at hc
    simp [splitScheme, hne, hc, ih (fun d hd => h d (by simp [hd]))]

theorem toList_mk (l : List Char) : (String.mk l).toList = l := rfl

/-- The serialization of a successfully parsed URL parses again: `safeUrl`
outputs (when nonempty) are syntactically valid absolute URLs. -/
theorem parseUrl_urlToString {u : String} {p : ParsedUrl}
    (h : parseUrl u = some p) : parseUrl (urlToString p) = some p := by
  unfold parseUrl at h
  rcases hsp : splitScheme u.toList with _ | ⟨sch, rest⟩
  · rw [hsp] at h; exact absurd h (by simp)
  · rw [hsp] at h
    by_cases hh : headIsAlpha sch
    · simp [hh] at h
      obtain ⟨hchars, _⟩ := splitScheme_sound hsp
      unfold parseUrl urlToString
      rw [toList_mk]
      subst h
      rw [splitScheme_append _ _ hchars]
      simp [hh]
    · simp [hh] at h

theorem safeUrl_ok (u : String) : safeUrl u = "" ∨ validAbsUrl (safeUrl u) = true := by
  unfold safeUrl
  rcases hp : parseUrl u with _ | p
  · exact Or.inl rfl
  · right
    unfold validAbsUrl
    rw [parseUrl_urlToString hp]
    rfl

/-! ## Controller state (App.jsx `App`, lines 510-648) -/

/-- The four column/source types of the dashboard (App.jsx `SOURCE_META`). -/
inductive ColType
  | hn
  | reddit
  | nasa
  | quote
  deriving Repr, DecidableEq

/-- Per-column state record.  The JS store keeps per-type shapes
(`page` only for hn, `after` only for reddit); this record is their common
superset, with the fields a type does not use left at their defaults. -/
structure ColState where
  items : List Item := []
  loading : Bool := false
  error : String := ""
  page : Nat := 0
  after : Option String := none
  hasMore : Bool := false
  deriving Repr, DecidableEq

/-- Initial column state on creation (App.jsx lines 521-525 and 535-538). -/
def initColState : ColType → ColState
  | .hn => { hasMore := true }
  | .reddit => { hasMore := true }
  | .nasa => {}
  | .quote => {}

/-- The store: a JS object keyed by column id, modelled as an association
list; `{...p, [colId]: v}` keeps an existing key in place and appends a new
one. -/
abbrev Store := List (String × ColState)

/-- Record used when the JS code reads or spreads a missing store entry; the
mount effect (App.jsx lines 530-543) keeps an entry for every column, so this
case is not reached in the application's own traces. -/
def defaultCol : ColState := {}

def getCol : Store → String → Option ColState
  | [], _ => none
  | (k, w) :: t, cid => if k = cid then some w else getCol t cid

def setCol : Store → String → ColState → Store
  | [], cid, v => [(cid, v)]
  | (k, w) :: t, cid, v => if k = cid then (k, v) :: t else (k, w) :: setCol t cid v

/-- The column record at an id, with the zeroed record for a missing entry. -/
def colAt (st : Store) (cid : String) : ColState :=
  (getCol st cid).getD defaultCol

/-- The buffer of a column (`store[c.id]?.items || []`). -/
def itemsAt (st : Store) (cid : String) : List Item :=
  (colAt st cid).items

/-- Request mode: `loadColumn(colId, mode)` distinguishes `"refresh"` and
`"more"`. -/
inductive Mode
  | refresh
  | more
  deriving Repr, DecidableEq

/-- The kind of a dispatched request, carrying the cursor captured at dispatch
time.  Only `fetchHN`, `fetchReddit` and `fetchQuote` calls can be dispatched
by `loadColumn`; there is no constructor for a NASA request because the nasa
branch of `loadColumn` fails before any fetch (see `dispatchLoad`). -/
inductive RKind
  | hn (page : Nat)
  | reddit (after : Option String)
  | quote
  deriving Repr, DecidableEq

/-- Column type a request kind belongs to (used for the catch-clause message,
which is chosen by `col.type` captured at dispatch). -/
def kindType : RKind → ColType
  | .hn _ => .hn
  | .reddit _ => .reddit
  | .quote => .quote

/-- An in-flight request: the column it serves, its kind and mode, and the
abort signal captured at dispatch (`abortRef.current?.signal`): `none` when no
controller existed yet, otherwise the controller generation. -/
structure Request where
  colId : String
  kind : RKind
  mode : Mode
  sig : Option Nat
  deriving Repr, DecidableEq

/-- Outcome of a dispatched adapter call: the resolved page (items, next page
index, next continuation token, `hasMore`) or a rejection (non-2xx, network
failure, parse failure). -/
inductive Outcome
  | ok (items : List Item) (nextPage : Nat) (nextAfter : Option String) (hasMore : Bool)
  | err
  deriving Repr, DecidableEq

/-- Whole-app state: the column list, the store, the current abort-controller
generation (`0` = `abortRef.current === null`), the in-flight requests, and a
log of adapter invocations (which fetch function was called for which
column). -/
structure AppState where
  columns : List (String × ColType) := []
  store : Store := []
  epoch : Nat := 0
  pending : List Request := []
  calls : List (String × ColType) := []
  deriving Repr, DecidableEq

/-- Column type registered for an id (`columns.find((c) => c.id === colId)`). -/
def lookupType (cols : List (String × ColType)) (cid : String) : Option ColType :=
  (cols.find? (fun c => c.1 = cid)).map (fun c => c.2)

/-- Error message set by `loadColumn`'s catch clause (App.jsx lines 619-622),
chosen by the column type captured at dispatch. -/
def errMsg : ColType → String
  | .reddit => "Could not load Reddit items. If you see a CORS error locally, try a different network or deploy (CORS often differs locally vs hosted)."
  | _ => "Could not load content. Try Refresh."

/-- The signal captured by `fetch(..., { signal: abortRef.current?.signal })`
at dispatch time. -/
def sigOf (epoch : Nat) : Option Nat :=
  if epoch = 0 then none else some epoch

/-- Value of the name `res` in scope at App.jsx line 594 (`if (!res.ok)`).
No binding of that name exists there: the `const res` of the hn and reddit
branches are block-scoped to branches that already returned.  Evaluating
`res.ok` therefore throws a `ReferenceError`; this is modelled by the binding
being `none`.  The `some` case keeps the (dead) fallback and quote code
reachable in the model exactly as it is written in the source. -/
def resAtLine594 : Option Bool := none

/-- The fabricated placeholder item built (but never reached) by the orphaned
fallback block at App.jsx lines 595-609. -/
def nasaFallbackItems : List Item :=
  [{ id := "nasa_fallback"
     source := "nasa"
     title := "NASA APOD temporarily unavailable"
     summary := "Rate limit reached. Please refresh later."
     author := "NASA"
     imageUrl := ""
     score := 0
     comments := 0
     host := "api.nasa.gov" }]

/-- Result of running `loadColumn`'s synchronous prefix: the new app state and
the value the async function returned synchronously, when it did (only the
dead fallback block returns a value; every caller discards it). -/
structure DispatchOut where
  state : AppState
  ret : Option (List Item)
  deriving Repr, DecidableEq

/-- Synchronous prefix of `loadColumn(colId, mode)` (App.jsx lines 561-625):
look up the column, set `loading`/clear `error`, then either dispatch the
type's fetch (hn/reddit: recording the adapter call and the pending request
with the cursor and abort signal captured at dispatch) or, for nasa and quote
columns, fall into the orphaned `if (!res.ok)` block at line 594, whose
`ReferenceError` is caught by the catch clause (lines 618-624).  The cursor
is read from the render-snapshot `store` closure; here it is read from the
store at event time, which agrees with the snapshot in every dispatched
event because events are atomic and no resolution lands mid-dispatch. -/
def dispatchLoad (s : AppState) (cid : String) (m : Mode) : DispatchOut :=
  match lookupType s.columns cid with
  | none => ⟨s, none⟩
  | some t =>
    let st0 := colAt s.store cid
    let store1 := setCol s.store cid { st0 with loading := true, error := "" }
    match t with
    | .hn =>
      let page := match m with | .more => st0.page | .refresh => 0
      ⟨{ s with
          store := store1
          calls := s.calls ++ [(cid, ColType.hn)]
          pending := s.pending ++ [⟨cid, RKind.hn page, m, sigOf s.epoch⟩] }, none⟩
    | .reddit =>
      let after := match m with | .more => st0.after | .refresh => none
      ⟨{ s with
          store := store1
          calls := s.calls ++ [(cid, ColType.reddit)]
          pending := s.pending ++ [⟨cid, RKind.reddit after, m, sigOf s.epoch⟩] }, none⟩
    | .nasa | .quote =>
      match resAtLine594 with
      | none =>
        ⟨{ s with
            store := setCol store1 cid { colAt store1 cid with loading := false, error := errMsg t } },
          none⟩
      | some ok =>
        if !ok then ⟨{ s with store := store1 }, some nasaFallbackItems⟩
        else
          match t with
          | .quote =>
            ⟨{ s with
                store := store1
                calls := s.calls ++ [(cid, ColType.quote)]
                pending := s.pending ++ [⟨cid, RKind.quote, m, sigOf s.epoch⟩] }, none⟩
          | _ => ⟨{ s with store := store1 }, none⟩

/-- A pending request's `fetch` rejects with an abort error exactly when the
signal it captured belongs to a superseded controller (every `refreshAll`
aborts the previous controller before creating the next one). -/
def rejectedByAbort (sig : Option Nat) (epoch : Nat) : Bool :=
  match sig with
  | none => false
  | some k => decide (k < epoch)

/-- Deliver the resolution of a request: an aborted fetch rejects into the
catch clause; otherwise a rejection takes the catch clause and a resolved page
applies the type's success update (App.jsx lines 571-577, 584-590, 615). -/
def applyResolution (s : AppState) (r : Request) (o : Outcome) : AppState :=
  if rejectedByAbort r.sig s.epoch then
    { s with
        store := setCol s.store r.colId
          { colAt s.store r.colId with loading := false, error := errMsg (kindType r.kind) } }
  else
    match o with
    | .err =>
      { s with
          store := setCol s.store r.colId
            { colAt s.store r.colId with loading := false, error := errMsg (kindType r.kind) } }
    | .ok its np na hm =>
      let cur := colAt s.store r.colId
      match r.kind with
      | .hn _ =>
        let prevItems := match r.mode with | .more => cur.items | .refresh => []
        { s with
            store := setCol s.store r.colId
              { cur with
                  items := prevItems ++ its
                  loading := false
                  error := ""
                  page := np
                  hasMore := hm } }
      | .reddit _ =>
        let prevItems := match r.mode with | .more => cur.items | .refresh => []
        { s with
            store := setCol s.store r.colId
              { cur with
                  items := prevItems ++ its
                  loading := false
                  error := ""
                  after := na
                  hasMore := hm } }
      | .quote =>
        { s with
            store := setCol s.store r.colId
              { cur with items := its, loading := false, error := "", hasMore := false } }

/-- Per-type state reset performed by `refreshAll` (App.jsx lines 633-638). -/
def resetColState (t : ColType) (st : ColState) : ColState :=
  match t with
  | .hn => { st with items := [], page := 0, hasMore := true, error := "", loading := true }
  | .reddit => { st with items := [], after := none, hasMore := true, error := "", loading := true }
  | .nasa | .quote => { st with items := [], error := "", loading := true, hasMore := false }

/-- The `refreshAll` reset pass over all columns, skipping columns without a
store entry (`if (!next[c.id]) continue`). -/
def refreshResetStore (st : Store) : List (String × ColType) → Store
  | [] => st
  | (cid, t) :: rest =>
    refreshResetStore
      (match getCol st cid with
       | none => st
       | some cur => setCol st cid (resetColState t cur)) rest

/-- Dispatch `loadColumn(c.id, "refresh")` for each column in order, as the
synchronous part of `Promise.all(columns.map(...))` does. -/
def dispatchAll (s : AppState) : List (String × ColType) → AppState
  | [] => s
  | (cid, _) :: rest => dispatchAll (dispatchLoad s cid .refresh).state rest

/-- `refreshAll` (App.jsx lines 627-643): abort the previous controller and
create a new one (epoch increment), reset every column's state, then dispatch
a refresh for every column.  The in-flight requests of earlier generations
stay pending; their later resolutions go through the abort path. -/
def refreshAll (s : AppState) : AppState :=
  let s1 : AppState := { s with epoch := s.epoch + 1 }
  let s2 : AppState := { s1 with store := refreshResetStore s1.store s1.columns }
  dispatchAll s2 s2.columns

/-- `removeColumn` (App.jsx lines 545-547): drop the column from the column
list.  The store entry, the in-flight requests and the abort controller are
left untouched. -/
def removeColumn (s : AppState) (cid : String) : AppState :=
  { s with columns := s.columns.filter (fun c => c.1 ≠ cid) }

/-- The Load More button of `ColumnShell` (App.jsx lines 490-500, 790-792):
rendered only when `hasMore`, disabled while `loading`; a click runs
`loadColumn(c.id, "more")`. -/
def loadMoreClick (s : AppState) (cid : String) : AppState :=
  let st := colAt s.store cid
  if st.hasMore && !st.loading then (dispatchLoad s cid .more).state else s

/-- Events of the interleaving model: the user-facing operations plus the
delivery of one pending request's resolution. -/
inductive Event
  | refreshAllE
  | loadMoreE (cid : String)
  | removeE (cid : String)
  | resolveE (i : Nat) (o : Outcome)
  deriving Repr, DecidableEq

def stepE (s : AppState) : Event → AppState
  | .refreshAllE => refreshAll s
  | .loadMoreE cid => loadMoreClick s cid
  | .removeE cid => removeColumn s cid
  | .resolveE i o =>
    match s.pending[i]? with
    | none => s
    | some r => { applyResolution s r o with pending := s.pending.eraseIdx i }

def run (s : AppState) : List Event → AppState
  | [] => s
  | e :: es => run (stepE s e) es

/-- The dashboard's initial state (App.jsx lines 515-525): three columns with
their fresh store records, no abort controller yet. -/
def initialApp : AppState :=
  { columns := [("col_hn", ColType.hn), ("col_reddit", ColType.reddit), ("col_nasa", ColType.nasa)]
    store := [("col_hn", initColState .hn), ("col_reddit", initColState .reddit),
              ("col_nasa", initColState .nasa)]
    epoch := 0
    pending := []
    calls := [] }

/-! ## View projection (`visibleByColumn`, App.jsx lines 650-667) -/

/-- Character-list prefix test (used to model `String.prototype.includes`). -/
def startsWithCh : List Char → List Char → Bool
  | [], _ => true
  | _ :: _, [] => false
  | a :: as, b :: bs => a == b && startsWithCh as bs

/-- Does the second list contain the first as a contiguous subsequence? -/
def containsSeq (p : List Char) : List Char → Bool
  | [] => startsWithCh p []
  | c :: t => startsWithCh p (c :: t) || containsSeq p t

/-- Model of `hay.includes(pat)` on strings. -/
def strHasSub (hay pat : String) : Bool :=
  containsSeq pat.toList hay.toList

/-- The haystack `visibleByColumn` searches per item (App.jsx lines 659-662):
`[title, summary, author, subreddit, host, tags.join(" ")].filter(Boolean).join(" ")`. -/
def itemHay (it : Item) : String :=
  String.intercalate " "
    (([it.title, it.summary, it.author, it.subreddit, it.host,
       String.intercalate " " it.tags]).filter (fun f => f ≠ ""))

/-- Membership test of the global search filter: the lower-cased haystack
contains the (already trimmed and lower-cased) search text. -/
def matchesSearch (s : String) (it : Item) : Bool :=
  strHasSub (toLowerStr (itemHay it)) s

/-- The view projection `visibleByColumn` (App.jsx lines 650-667): for each
column, the buffer unchanged when the trimmed search text is empty, otherwise
the buffer filtered by `matchesSearch`. -/
def visibleByColumn (columns : List (String × ColType)) (store : Store)
    (globalSearch : String) : List (String × List Item) :=
  let s := toLowerStr (trimJs globalSearch)
  columns.map (fun c =>
    (c.1, if s = "" then itemsAt store c.1
          else (itemsAt store c.1).filter (fun it => matchesSearch s it)))

/-- Stated from the spec's words, for comparison with the code (claim C9):
the concatenation of `title + summary + author + tags`, lower-cased, of one
item — the fields the spec says are the only ones affecting filter
membership. -/
def specFilterHay (it : Item) : String :=
  toLowerStr (it.title ++ it.summary ++ it.author ++ String.join it.tags)

/-- Stated from the spec's words, for comparison with the code (claim C9):
an item passes the filter exactly when `specFilterHay` contains the
lower-cased filter text. -/
def specMatches (s : String) (it : Item) : Bool :=
  strHasSub (specFilterHay it) (toLowerStr s)

/-! ## Helper lemmas about the store and the step machine -/

theorem getCol_setCol_self (st : Store) (cid : String) (v : ColState) :
    getCol (setCol st cid v) cid = some v := by
  induction st with
  | nil => simp [setCol, getCol]
  | cons kv t ih =>
    obtain ⟨k, w⟩ := kv
    by_cases h : k = cid
    · simp [setCol, getCol, h]
    · simp [setCol, getCol, h, ih]

theorem getCol_setCol_ne (st : Store) (cid cid' : String) (v : ColState)
    (h : cid' ≠ cid) : getCol (setCol st cid v) cid' = getCol st cid' := by
  have hne : ¬ (cid = cid') := fun hh => h hh.symm
  induction st with
  | nil => simp [setCol, getCol, hne]
  | cons kv t ih =>
    obtain ⟨k, w⟩ := kv
    by_cases hk : k = cid
    · subst hk
      simp [setCol, getCol, hne]
    · by_cases hk' : k = cid'
      · subst hk'
        simp [setCol, getCol, h]
      · simp [setCol, getCol, hk, hk', ih]

theorem colAt_setCol_self (st : Store) (cid : String) (v : ColState) :
    colAt (setCol st cid v) cid = v := by
  simp [colAt, getCol_setCol_self]

theorem colAt_setCol_ne (st : Store) (cid cid' : String) (v : ColState)
    (h : cid' ≠ cid) : colAt (setCol st cid v) cid' = colAt st cid' := by
  simp [colAt, getCol_setCol_ne st cid cid' v h]

theorem epoch_dispatchLoad (s : AppState) (cid : String) (m : Mode) :
    (dispatchLoad s cid m).state.epoch = s.epoch := by
  unfold dispatchLoad
  rcases lookupType s.columns cid with _ | t
  · rfl
  · cases t <;> simp [resAtLine594]

theorem columns_dispatchLoad (s : AppState) (cid : String) (m : Mode) :
    (dispatchLoad s cid m).state.columns = s.columns := by
  unfold dispatchLoad
  rcases lookupType s.columns cid with _ | t
  · rfl
  · cases t <;> simp [resAtLine594]

theorem epoch_dispatchAll (s : AppState) (l : List (String × ColType)) :
    (dispatchAll s l).epoch = s.epoch := by
  induction l generalizing s with
  | nil => rfl
  | cons c rest ih => simp [dispatchAll, ih, epoch_dispatchLoad]

theorem epoch_refreshAll (s : AppState) : (refreshAll s).epoch = s.epoch + 1 := by
  simp [refreshAll, epoch_dispatchAll]

theorem epoch_applyResolution (s : AppState) (r : Request) (o : Outcome) :
    (applyResolution s r o).epoch = s.epoch := by
  unfold applyResolution
  split
  · rfl
  · rcases o with ⟨its, np, na, hm⟩ | _
    · cases r.kind <;> rfl
    · rfl

theorem epoch_loadMoreClick (s : AppState) (cid : String) :
    s.epoch ≤ (loadMoreClick s cid).epoch := by
  unfold loadMoreClick
  by_cases h : ((colAt s.store cid).hasMore && !(colAt s.store cid).loading) = true
  · simp [h, epoch_dispatchLoad]
  · simp [h]

theorem epoch_stepE_le (s : AppState) (e : Event) : s.epoch ≤ (stepE s e).epoch := by
  cases e with
  | refreshAllE =>
    have h := epoch_refreshAll s
    simp only [stepE]
    omega
  | loadMoreE cid =>
    simp only [stepE]
    exact epoch_loadMoreClick s cid
  | removeE cid =>
    simp only [stepE, removeColumn]
    exact le_refl _
  | resolveE i o =>
    simp only [stepE]
    rcases hp : s.pending[i]? with _ | r
    · simp
    · simp [epoch_applyResolution]

theorem epoch_run_le (s : AppState) (evs : List Event) : s.epoch ≤ (run s evs).epoch := by
  induction evs generalizing s with
  | nil => exact le_refl _
  | cons e es ih => exact le_trans (epoch_stepE_le s e) (ih (stepE s e))

/-- Resolving a request whose signal belongs to a superseded controller only
touches the `loading` and `error` fields of its column's record. -/
theorem applyResolution_rejected (s : AppState) (r : Request) (o : Outcome)
    (h : rejectedByAbort r.sig s.epoch = true) :
    applyResolution s r o =
      { s with
          store := setCol s.store r.colId
            { colAt s.store r.colId with loading := false, error := errMsg (kindType r.kind) } } := by
  unfold applyResolution
  simp [h]

theorem setCol_setCol (st : Store) (cid : String) (v w : ColState) :
    setCol (setCol st cid v) cid w = setCol st cid w := by
  induction st with
  | nil => simp [setCol]
  | cons kv t ih =>
    obtain ⟨k, u⟩ := kv
    by_cases h : k = cid <;> simp [setCol, h, ih]

theorem rejected_sigOf (e : Nat) : rejectedByAbort (sigOf e) e = false := by
  unfold rejectedByAbort sigOf
  by_cases h : e = 0 <;> simp [h]

theorem columns_applyResolution (s : AppState) (r : Request) (o : Outcome) :
    (applyResolution s r o).columns = s.columns := by
  unfold applyResolution
  split
  · rfl
  · rcases o with ⟨its, np, na, hm⟩ | _
    · cases r.kind <;> rfl
    · rfl

/-- Characterization of `loadColumn`'s synchronous prefix for an hn column. -/
theorem dispatchLoad_hn (s : AppState) (cid : String) (m : Mode)
    (hty : lookupType s.columns cid = some ColType.hn) :
    dispatchLoad s cid m =
      ⟨{ s with
          store := setCol s.store cid { colAt s.store cid with loading := true, error := "" }
          calls := s.calls ++ [(cid, ColType.hn)]
          pending := s.pending ++
            [⟨cid, RKind.hn (match m with | .more => (colAt s.store cid).page | .refresh => 0),
              m, sigOf s.epoch⟩] }, none⟩ := by
  unfold dispatchLoad
  rw [hty]

/-- Characterization of `loadColumn`'s synchronous prefix for a reddit column. -/
theorem dispatchLoad_reddit (s : AppState) (cid : String) (m : Mode)
    (hty : lookupType s.columns cid = some ColType.reddit) :
    dispatchLoad s cid m =
      ⟨{ s with
          store := setCol s.store cid { colAt s.store cid with loading := true, error := "" }
          calls := s.calls ++ [(cid, ColType.reddit)]
          pending := s.pending ++
            [⟨cid, RKind.reddit (match m with | .more => (colAt s.store cid).after | .refresh => none),
              m, sigOf s.epoch⟩] }, none⟩ := by
  unfold dispatchLoad
  rw [hty]

/-- Characterization of `loadColumn`'s synchronous prefix for a nasa column:
the orphaned `if (!res.ok)` block dereferences the unbound `res`, the
`ReferenceError` lands in the catch clause, and the function completes
synchronously with the error recorded — no fetch, no pending request, no
returned fallback. -/
theorem dispatchLoad_nasa (s : AppState) (cid : String) (m : Mode)
    (hty : lookupType s.columns cid = some ColType.nasa) :
    dispatchLoad s cid m =
      ⟨{ s with
          store := setCol s.store cid
            { colAt s.store cid with loading := false, error := errMsg ColType.nasa } }, none⟩ := by
  unfold dispatchLoad
  rw [hty]
  simp [resAtLine594, colAt_setCol_self, setCol_setCol]

/-- Resolution of a live (non-aborted) hn request that succeeds. -/
theorem applyResolution_ok_hn (s : AppState) (cid : String) (p : Nat) (m : Mode)
    (sg : Option Nat) (hrej : rejectedByAbort sg s.epoch = false)
    (its : List Item) (np : Nat) (na : Option String) (hm : Bool) :
    applyResolution s ⟨cid, RKind.hn p, m, sg⟩ (.ok its np na hm) =
      { s with
          store := setCol s.store cid
            { colAt s.store cid with
                items := (match m with | .more => (colAt s.store cid).items | .refresh => []) ++ its
                loading := false
                error := ""
                page := np
                hasMore := hm } } := by
  unfold applyResolution
  simp [hrej]

/-- Resolution of a live (non-aborted) reddit request that succeeds. -/
theorem applyResolution_ok_reddit (s : AppState) (cid : String) (a : Option String) (m : Mode)
    (sg : Option Nat) (hrej : rejectedByAbort sg s.epoch = false)
    (its : List Item) (np : Nat) (na : Option String) (hm : Bool) :
    applyResolution s ⟨cid, RKind.reddit a, m, sg⟩ (.ok its np na hm) =
      { s with
          store := setCol s.store cid
            { colAt s.store cid with
                items := (match m with | .more => (colAt s.store cid).items | .refresh => []) ++ its
                loading := false
                error := ""
                after := na
                hasMore := hm } } := by
  unfold applyResolution
  simp [hrej]

/-- Every adapter call recorded by one `loadColumn` dispatch is an old one or
targets the hn, reddit or quote fetch; there is no way to record a nasa call. -/
theorem calls_dispatchLoad (s : AppState) (cid : String) (m : Mode) :
    (dispatchLoad s cid m).state.calls = s.calls ∨
    (dispatchLoad s cid m).state.calls = s.calls ++ [(cid, ColType.hn)] ∨
    (dispatchLoad s cid m).state.calls = s.calls ++ [(cid, ColType.reddit)] := by
  unfold dispatchLoad
  rcases lookupType s.columns cid with _ | t
  · exact Or.inl rfl
  · cases t <;> simp [resAtLine594]

theorem lookupType_removed (cols : List (String × ColType)) (cid : String) :
    lookupType (cols.filter (fun c => c.1 ≠ cid)) cid = none := by
  unfold lookupType
  rw [Option.map_eq_none', List.find?_eq_none]
  intro x hx
  have hmem := List.of_mem_filter hx
  simp at hmem ⊢
  exact hmem

/-! ## Concrete fixtures used by witnesses and counterexamples -/

/-- Sample normalized item standing for an hn adapter result. -/
def sampleA : Item :=
  { id := "hn_a1", source := "hn", title := "Sample story A" }

/-- Second sample item standing for a later hn adapter result. -/
def sampleB : Item :=
  { id := "hn_a2", source := "hn", title := "Sample story B" }

/-- Sample normalized item standing for a reddit adapter result. -/
def sampleR : Item :=
  { id := "rd_b1", source := "reddit", title := "Sample post" }

/-- State after the mount-time `refreshAll` of the initial dashboard. -/
def sRef1 : AppState := refreshAll initialApp

/-- State after a second `refreshAll` issued before any request of the first
one resolved. -/
def sRef2 : AppState := refreshAll sRef1

/-- A single hn column whose first page is already loaded: buffer `[sampleA]`,
cursor `1`, more pages available, nothing in flight. -/
def sPag : AppState :=
  { columns := [("c", ColType.hn)]
    store := [("c", { items := [sampleA], hasMore := true, page := 1 })]
    epoch := 1 }

/-- An epoch-1 request of the initial `refreshAll`, as `dispatchLoad` creates
it. -/
def reqEpoch1 : Request := ⟨"col_hn", RKind.hn 0, Mode.refresh, some 1⟩

/-- An hn column whose pagination is exhausted: `hasMore` false. -/
def sPagDone : AppState :=
  { columns := [("c", ColType.hn)]
    store := [("c", { items := [sampleA], hasMore := false, page := 2 })]
    epoch := 1 }

/-! ## Claim theorems -/

/-- Claim C1 (code_bug evidence).  Failure isolation of `refreshAll` holds
between the columns whose branches actually dispatch an adapter (hn, reddit):
in the run below the hn upstream fails and the reddit upstream succeeds, and
afterwards reddit's buffer holds its items with `lastError` clear while hn
has the error and an empty buffer.  But the claim is violated for the nasa
instance: its upstream is healthy (no failure is ever delivered for it), yet
after `refreshAll` completes its buffer is empty and its error is set,
because the nasa branch of `loadColumn` dereferences the unbound `res`
(App.jsx line 594) and never invokes `fetchNASA` — the call log of the whole
run contains no nasa call. -/
theorem refreshAll_isolation_nasa_bug :
    (colAt (stepE (stepE sRef1 (.resolveE 0 .err))
        (.resolveE 0 (.ok [sampleR] 1 (some "t3_x") true))).store "col_reddit").items = [sampleR] ∧
    (colAt (stepE (stepE sRef1 (.resolveE 0 .err))
        (.resolveE 0 (.ok [sampleR] 1 (some "t3_x") true))).store "col_reddit").error = "" ∧
    (colAt (stepE (stepE sRef1 (.resolveE 0 .err))
        (.resolveE 0 (.ok [sampleR] 1 (some "t3_x") true))).store "col_hn").items = [] ∧
    (colAt (stepE (stepE sRef1 (.resolveE 0 .err))
        (.resolveE 0 (.ok [sampleR] 1 (some "t3_x") true))).store "col_hn").error
      = "Could not load content. Try Refresh." ∧
    (colAt (stepE (stepE sRef1 (.resolveE 0 .err))
        (.resolveE 0 (.ok [sampleR] 1 (some "t3_x") true))).store "col_nasa").items = [] ∧
    (colAt (stepE (stepE sRef1 (.resolveE 0 .err))
        (.resolveE 0 (.ok [sampleR] 1 (some "t3_x") true))).store "col_nasa").error
      = "Could not load content. Try Refresh." ∧
    (stepE (stepE sRef1 (.resolveE 0 .err))
        (.resolveE 0 (.ok [sampleR] 1 (some "t3_x") true))).calls
      = [("col_hn", ColType.hn), ("col_reddit", ColType.reddit)] := by
  decide

/-- Claim C2.  Stale-epoch discard: start `refreshAll` (epoch N), call
`refreshAll` again before any resolution (epoch N+1), run any further events,
and then deliver the resolution of any request tagged with epoch N — whatever
outcome it carries, every instance's buffer is exactly what it was before the
delivery, so no item carried by an epoch-N response ever appears in a buffer.
The mechanism is the abort signal: the second `refreshAll` aborts the epoch-N
controller, so the fetch rejects into the catch clause, which never touches
`items`. -/
theorem stale_epoch_discard (s0 : AppState) (evs : List Event) (r : Request) (o : Outcome)
    (hsig : r.sig = some (refreshAll s0).epoch) (cid : String) :
    itemsAt (applyResolution (run (refreshAll (refreshAll s0)) evs) r o).store cid
      = itemsAt (run (refreshAll (refreshAll s0)) evs).store cid := by
  have h1 : (refreshAll s0).epoch = s0.epoch + 1 := epoch_refreshAll s0
  have h2 : (refreshAll (refreshAll s0)).epoch = s0.epoch + 2 := by
    rw [epoch_refreshAll, h1]
  have h3 := epoch_run_le (refreshAll (refreshAll s0)) evs
  have hrej : rejectedByAbort r.sig (run (refreshAll (refreshAll s0)) evs).epoch = true := by
    rw [hsig]
    unfold rejectedByAbort
    simp only [decide_eq_true_eq]
    omega
  rw [applyResolution_rejected _ _ _ hrej]
  by_cases hc : cid = r.colId
  · subst hc
    simp [itemsAt, colAt_setCol_self]
  · simp [itemsAt, colAt_setCol_ne _ _ _ _ hc]

/-- Witness for C2: a concrete epoch-1 request of the first refresh, resolved
with a successful page after a second refresh, leaves the hn buffer
unchanged. -/
theorem stale_epoch_discard_check :
    reqEpoch1 ∈ (refreshAll initialApp).pending ∧
    reqEpoch1.sig = some (refreshAll initialApp).epoch ∧
    itemsAt (applyResolution (run (refreshAll (refreshAll initialApp)) [])
        reqEpoch1 (.ok [sampleA] 1 none true)).store "col_hn"
      = itemsAt (run (refreshAll (refreshAll initialApp)) []).store "col_hn" :=
  ⟨by decide, by decide,
   stale_epoch_discard initialApp [] reqEpoch1 (.ok [sampleA] 1 none true) (by decide) "col_hn"⟩

/-- Claim C4.  Feature-source failure reporting: whatever the NASA upstream
would do, `loadColumn` on a nasa column returns no value, records no adapter
call, adds no pending request, leaves every buffer unchanged (in particular
the fabricated `nasa_fallback` placeholder of the dead block at lines 595-609
is never returned nor stored), and ends with the instance's error reported.
The fabrication block is unreachable: evaluating `res.ok` at line 594 throws
before the placeholder object literal is ever built. -/
theorem nasa_failure_reported (s : AppState) (cid : String) (m : Mode)
    (hty : lookupType s.columns cid = some ColType.nasa) :
    (dispatchLoad s cid m).ret = none ∧
    (dispatchLoad s cid m).state.calls = s.calls ∧
    (dispatchLoad s cid m).state.pending = s.pending ∧
    (∀ cid', itemsAt (dispatchLoad s cid m).state.store cid' = itemsAt s.store cid') ∧
    (colAt (dispatchLoad s cid m).state.store cid).error
      = "Could not load content. Try Refresh." := by
  rw [dispatchLoad_nasa s cid m hty]
  refine ⟨rfl, rfl, rfl, ?_, ?_⟩
  · intro cid'
    by_cases hc : cid' = cid
    · subst hc
      simp [itemsAt, colAt_setCol_self]
    · simp [itemsAt, colAt_setCol_ne _ _ _ _ hc]
  · simp [colAt_setCol_self, errMsg]

/-- Witness for C4 at the dashboard's own nasa column. -/
theorem nasa_failure_reported_check :
    lookupType initialApp.columns "col_nasa" = some ColType.nasa ∧
    (dispatchLoad initialApp "col_nasa" Mode.refresh).ret = none ∧
    (colAt (dispatchLoad initialApp "col_nasa" Mode.refresh).state.store "col_nasa").error
      = "Could not load content. Try Refresh." :=
  ⟨by decide,
   (nasa_failure_reported initialApp "col_nasa" Mode.refresh (by decide)).1,
   (nasa_failure_reported initialApp "col_nasa" Mode.refresh (by decide)).2.2.2.2⟩

/-- Claim C5.  The nasa branch of `loadColumn` is dead: no dispatch can ever
record a `fetchNASA` invocation (first conjunct, over every column type), and
on a nasa column `loadColumn` stores no item, creates no request, and always
ends with the error message set and the loading flag cleared, regardless of
mode — the feature source can never contribute an item to the dashboard. -/
theorem nasa_branch_dead (s : AppState) (cid : String) (m : Mode) :
    (∀ e ∈ (dispatchLoad s cid m).state.calls, e ∈ s.calls ∨ e.2 ≠ ColType.nasa) ∧
    (lookupType s.columns cid = some ColType.nasa →
      (colAt (dispatchLoad s cid m).state.store cid).error
          = "Could not load content. Try Refresh." ∧
      (colAt (dispatchLoad s cid m).state.store cid).loading = false ∧
      (colAt (dispatchLoad s cid m).state.store cid).items = (colAt s.store cid).items ∧
      (dispatchLoad s cid m).state.pending = s.pending ∧
      (dispatchLoad s cid m).state.calls = s.calls) := by
  constructor
  · intro e he
    rcases calls_dispatchLoad s cid m with hc | hc | hc
    · rw [hc] at he
      exact Or.inl he
    · rw [hc] at he
      rcases List.mem_append.mp he with h1 | h1
      · exact Or.inl h1
      · right
        simp at h1
        simp [h1]
    · rw [hc] at he
      rcases List.mem_append.mp he with h1 | h1
      · exact Or.inl h1
      · right
        simp at h1
        simp [h1]
  · intro hty
    rw [dispatchLoad_nasa s cid m hty]
    refine ⟨?_, ?_, ?_, rfl, rfl⟩ <;> simp [colAt_setCol_self, errMsg]

/-- Witness for C5: instantiated at the dashboard's nasa column (second
conjunct) and, for the first conjunct, at the hn dispatch whose single new
call is an hn call, not a nasa one. -/
theorem nasa_branch_dead_check :
    (("col_hn", ColType.hn) ∈ (dispatchLoad initialApp "col_hn" Mode.refresh).state.calls ∧
      (("col_hn", ColType.hn) ∈ initialApp.calls ∨ ("col_hn", ColType.hn).2 ≠ ColType.nasa)) ∧
    (lookupType initialApp.columns "col_nasa" = some ColType.nasa ∧
      (colAt (dispatchLoad initialApp "col_nasa" Mode.more).state.store "col_nasa").error
        = "Could not load content. Try Refresh.") :=
  ⟨⟨by decide,
    (nasa_branch_dead initialApp "col_hn" Mode.refresh).1 ("col_hn", ColType.hn) (by decide)⟩,
   ⟨by decide, ((nasa_branch_dead initialApp "col_nasa" Mode.more).2 (by decide)).1⟩⟩

/-- Claim C3 (counterexample).  The claim says a `loadMore` issued while the
instance is already loading is a no-op that does not invoke the adapter, so
two immediate calls perform exactly one adapter invocation.  On the code,
`loadColumn` has no such guard: after a first `loadColumn(c, "more")` the
instance is loading (first conjunct), and an immediately following second
call still invokes the adapter, for two invocations in total (second
conjunct), both with the same cursor (third conjunct). -/
theorem loadMore_no_guard_cex :
    (colAt (dispatchLoad sPag "c" Mode.more).state.store "c").loading = true ∧
    (dispatchLoad (dispatchLoad sPag "c" Mode.more).state "c" Mode.more).state.calls
      = [("c", ColType.hn), ("c", ColType.hn)] ∧
    (dispatchLoad (dispatchLoad sPag "c" Mode.more).state "c" Mode.more).state.pending
      = [⟨"c", RKind.hn 1, Mode.more, some 1⟩, ⟨"c", RKind.hn 1, Mode.more, some 1⟩] := by
  decide

/-- Claim C3 (amended).  `loadColumn` itself performs no `isLoading`/`hasMore`
guard: called in `"more"` mode on an hn column it always records an adapter
invocation, also when the instance is already loading or has no more pages
(first conjunct, unconditional).  The at-most-one-in-flight behavior exists
only at the view layer: the Load More button is not rendered when `hasMore`
is false, so a click is a no-op then (second conjunct), and it is disabled
while `loading`, so two immediate button clicks perform exactly one adapter
invocation — the second click is a no-op (third conjunct). -/
theorem loadMore_guard_amended (s : AppState) (cid : String)
    (hty : lookupType s.columns cid = some ColType.hn) :
    ((dispatchLoad s cid Mode.more).state.calls = s.calls ++ [(cid, ColType.hn)]) ∧
    ((colAt s.store cid).hasMore = false → loadMoreClick s cid = s) ∧
    ((colAt s.store cid).hasMore = true → (colAt s.store cid).loading = false →
      (loadMoreClick (loadMoreClick s cid) cid).calls = s.calls ++ [(cid, ColType.hn)]) := by
  refine ⟨?_, ?_, ?_⟩
  · rw [dispatchLoad_hn s cid Mode.more hty]
  · intro hm
    unfold loadMoreClick
    simp [hm]
  · intro hm hl
    have h1 : loadMoreClick s cid = (dispatchLoad s cid Mode.more).state := by
      unfold loadMoreClick
      simp [hm, hl]
    have h2 : colAt (dispatchLoad s cid Mode.more).state.store cid
        = { colAt s.store cid with loading := true, error := "" } := by
      rw [dispatchLoad_hn s cid Mode.more hty]
      simp [colAt_setCol_self]
    have h3 : loadMoreClick (dispatchLoad s cid Mode.more).state cid
        = (dispatchLoad s cid Mode.more).state := by
      unfold loadMoreClick
      rw [h2]
      simp
    rw [h1, h3, dispatchLoad_hn s cid Mode.more hty]

/-- Witness for the amended C3: on the loaded hn column, a direct second
dispatch during flight still calls the adapter, while two button clicks
produce exactly one call. -/
theorem loadMore_guard_amended_check :
    (lookupType sPag.columns "c" = some ColType.hn ∧
      (colAt (loadMoreClick sPag "c").store "c").loading = true ∧
      (dispatchLoad (loadMoreClick sPag "c") "c" Mode.more).state.calls
        = (loadMoreClick sPag "c").calls ++ [("c", ColType.hn)]) ∧
    ((colAt sPagDone.store "c").hasMore = false ∧ loadMoreClick sPagDone "c" = sPagDone) ∧
    ((colAt sPag.store "c").hasMore = true ∧ (colAt sPag.store "c").loading = false ∧
      (loadMoreClick (loadMoreClick sPag "c") "c").calls = sPag.calls ++ [("c", ColType.hn)]) :=
  ⟨⟨by decide, by decide,
    (loadMore_guard_amended (loadMoreClick sPag "c") "c" (by decide)).1⟩,
   ⟨by decide, (loadMore_guard_amended sPagDone "c" (by decide)).2.1 (by decide)⟩,
   ⟨by decide, by decide,
    (loadMore_guard_amended sPag "c" (by decide)).2.2 (by decide) (by decide)⟩⟩

/-- Claim C6.  Append-only pagination in request order, for both paginated
source types.  For an hn column (first conjunct): a refresh dispatch followed
by its successful resolution with `page0 = is0`, then a load-more dispatch
followed by its successful resolution with `page1 = is1`, leaves the buffer
equal to `is0 ++ is1` in that order, with the cursor advanced to the
adapter's latest `nextPage` and `hasMore` updated; the refresh dispatches the
adapter at cursor 0 and the load-more dispatches it at the cursor the refresh
resolution stored.  The reddit half (second conjunct) is the same with the
opaque `after` continuation token. -/
theorem append_only_pagination :
    (∀ (s s1 s2 s3 s4 : AppState) (cid : String) (is0 is1 : List Item) (np0 np1 : Nat)
        (na0 na1 : Option String) (hm0 hm1 : Bool),
      lookupType s.columns cid = some ColType.hn →
      s1 = (dispatchLoad s cid Mode.refresh).state →
      s2 = applyResolution s1 ⟨cid, RKind.hn 0, Mode.refresh, sigOf s.epoch⟩
             (.ok is0 np0 na0 hm0) →
      s3 = (dispatchLoad s2 cid Mode.more).state →
      s4 = applyResolution s3 ⟨cid, RKind.hn np0, Mode.more, sigOf s.epoch⟩
             (.ok is1 np1 na1 hm1) →
      s1.pending = s.pending ++ [⟨cid, RKind.hn 0, Mode.refresh, sigOf s.epoch⟩] ∧
      (colAt s2.store cid).items = is0 ∧
      (colAt s2.store cid).page = np0 ∧
      s3.pending = s2.pending ++ [⟨cid, RKind.hn np0, Mode.more, sigOf s.epoch⟩] ∧
      (colAt s4.store cid).items = is0 ++ is1 ∧
      (colAt s4.store cid).page = np1 ∧
      (colAt s4.store cid).hasMore = hm1) ∧
    (∀ (s s1 s2 s3 s4 : AppState) (cid : String) (is0 is1 : List Item) (np0 np1 : Nat)
        (na0 na1 : Option String) (hm0 hm1 : Bool),
      lookupType s.columns cid = some ColType.reddit →
      s1 = (dispatchLoad s cid Mode.refresh).state →
      s2 = applyResolution s1 ⟨cid, RKind.reddit none, Mode.refresh, sigOf s.epoch⟩
             (.ok is0 np0 na0 hm0) →
      s3 = (dispatchLoad s2 cid Mode.more).state →
      s4 = applyResolution s3 ⟨cid, RKind.reddit na0, Mode.more, sigOf s.epoch⟩
             (.ok is1 np1 na1 hm1) →
      s1.pending = s.pending ++ [⟨cid, RKind.reddit none, Mode.refresh, sigOf s.epoch⟩] ∧
      (colAt s2.store cid).items = is0 ∧
      (colAt s2.store cid).after = na0 ∧
      s3.pending = s2.pending ++ [⟨cid, RKind.reddit na0, Mode.more, sigOf s.epoch⟩] ∧
      (colAt s4.store cid).items = is0 ++ is1 ∧
      (colAt s4.store cid).after = na1 ∧
      (colAt s4.store cid).hasMore = hm1) := by
  constructor
  · intro s s1 s2 s3 s4 cid is0 is1 np0 np1 na0 na1 hm0 hm1 hty h1 h2 h3 h4
    rw [dispatchLoad_hn s cid Mode.refresh hty] at h1
    have hep1 : s1.epoch = s.epoch := by rw [h1]
    have hcols1 : s1.columns = s.columns := by rw [h1]
    have hst1 : s1.store
        = setCol s.store cid { colAt s.store cid with loading := true, error := "" } := by
      rw [h1]
    have hrej1 : rejectedByAbort (sigOf s.epoch) s1.epoch = false := by
      rw [hep1]
      exact rejected_sigOf s.epoch
    rw [applyResolution_ok_hn s1 cid 0 Mode.refresh (sigOf s.epoch) hrej1 is0 np0 na0 hm0] at h2
    have hcol2 : colAt s2.store cid
        = { colAt s1.store cid with
              items := is0, loading := false, error := "", page := np0, hasMore := hm0 } := by
      rw [h2]
      simp [colAt_setCol_self]
    have hep2 : s2.epoch = s1.epoch := by rw [h2]
    have hcols2 : s2.columns = s1.columns := by rw [h2]
    have hty2' : lookupType s2.columns cid = some ColType.hn := by
      rw [hcols2, hcols1]
      exact hty
    rw [dispatchLoad_hn s2 cid Mode.more hty2'] at h3
    have hpend3 : s3.pending
        = s2.pending ++ [⟨cid, RKind.hn (colAt s2.store cid).page, Mode.more, sigOf s2.epoch⟩] := by
      rw [h3]
    have hep3 : s3.epoch = s2.epoch := by rw [h3]
    have hst3 : s3.store
        = setCol s2.store cid { colAt s2.store cid with loading := true, error := "" } := by
      rw [h3]
    have hrej3 : rejectedByAbort (sigOf s.epoch) s3.epoch = false := by
      rw [hep3, hep2, hep1]
      exact rejected_sigOf s.epoch
    rw [applyResolution_ok_hn s3 cid np0 Mode.more (sigOf s.epoch) hrej3 is1 np1 na1 hm1] at h4
    have hcol3 : colAt s3.store cid
        = { colAt s2.store cid with loading := true, error := "" } := by
      rw [hst3]
      simp [colAt_setCol_self]
    have hcol4 : colAt s4.store cid
        = { colAt s3.store cid with
              items := (colAt s3.store cid).items ++ is1, loading := false, error := ""
              page := np1, hasMore := hm1 } := by
      rw [h4]
      simp [colAt_setCol_self]
    refine ⟨by rw [h1], ?_, ?_, ?_, ?_, ?_, ?_⟩
    · rw [hcol2]
    · rw [hcol2]
    · rw [hpend3, hcol2, hep2, hep1]
    · rw [hcol4, hcol3, hcol2]
    · rw [hcol4]
    · rw [hcol4]
  · intro s s1 s2 s3 s4 cid is0 is1 np0 np1 na0 na1 hm0 hm1 hty h1 h2 h3 h4
    rw [dispatchLoad_reddit s cid Mode.refresh hty] at h1
    have hep1 : s1.epoch = s.epoch := by rw [h1]
    have hcols1 : s1.columns = s.columns := by rw [h1]
    have hst1 : s1.store
        = setCol s.store cid { colAt s.store cid with loading := true, error := "" } := by
      rw [h1]
    have hrej1 : rejectedByAbort (sigOf s.epoch) s1.epoch = false := by
      rw [hep1]
      exact rejected_sigOf s.epoch
    rw [applyResolution_ok_reddit s1 cid none Mode.refresh (sigOf s.epoch) hrej1 is0 np0 na0 hm0] at h2
    have hcol2 : colAt s2.store cid
        = { colAt s1.store cid with
              items := is0, loading := false, error := "", after := na0, hasMore := hm0 } := by
      rw [h2]
      simp [colAt_setCol_self]
    have hep2 : s2.epoch = s1.epoch := by rw [h2]
    have hcols2 : s2.columns = s1.columns := by rw [h2]
    have hty2' : lookupType s2.columns cid = some ColType.reddit := by
      rw [hcols2, hcols1]
      exact hty
    rw [dispatchLoad_reddit s2 cid Mode.more hty2'] at h3
    have hpend3 : s3.pending
        = s2.pending ++ [⟨cid, RKind.reddit (colAt s2.store cid).after, Mode.more, sigOf s2.epoch⟩] := by
      rw [h3]
    have hep3 : s3.epoch = s2.epoch := by rw [h3]
    have hst3 : s3.store
        = setCol s2.store cid { colAt s2.store cid with loading := true, error := "" } := by
      rw [h3]
    have hrej3 : rejectedByAbort (sigOf s.epoch) s3.epoch = false := by
      rw [hep3, hep2, hep1]
      exact rejected_sigOf s.epoch
    rw [applyResolution_ok_reddit s3 cid na0 Mode.more (sigOf s.epoch) hrej3 is1 np1 na1 hm1] at h4
    have hcol3 : colAt s3.store cid
        = { colAt s2.store cid with loading := true, error := "" } := by
      rw [hst3]
      simp [colAt_setCol_self]
    have hcol4 : colAt s4.store cid
        = { colAt s3.store cid with
              items := (colAt s3.store cid).items ++ is1, loading := false, error := ""
              after := na1, hasMore := hm1 } := by
      rw [h4]
      simp [colAt_setCol_self]
    refine ⟨by rw [h1], ?_, ?_, ?_, ?_, ?_, ?_⟩
    · rw [hcol2]
    · rw [hcol2]
    · rw [hpend3, hcol2, hep2, hep1]
    · rw [hcol4, hcol3, hcol2]
    · rw [hcol4]
    · rw [hcol4]

/-- Witness for C6 at a fresh hn column: refresh yields `[sampleA]`, one
load-more appends `[sampleB]`, and the buffer is `[sampleA, sampleB]`. -/
theorem append_only_pagination_check :
    lookupType [("c", ColType.hn)] "c" = some ColType.hn ∧
    (colAt (applyResolution
        (dispatchLoad (applyResolution
            (dispatchLoad { columns := [("c", ColType.hn)]
                          , store := [("c", initColState .hn)]
                          , epoch := 1 } "c" Mode.refresh).state
          ⟨"c", RKind.hn 0, Mode.refresh, sigOf 1⟩ (.ok [sampleA] 1 none true)) "c" Mode.more).state
        ⟨"c", RKind.hn 1, Mode.more, sigOf 1⟩ (.ok [sampleB] 2 none false)).store "c").items
      = [sampleA] ++ [sampleB] :=
  ⟨by decide,
   ((append_only_pagination.1
      { columns := [("c", ColType.hn)], store := [("c", initColState .hn)], epoch := 1 }
      _ _ _ _ "c" [sampleA] [sampleB] 1 2 none none true false
      (by decide) rfl rfl rfl rfl).2.2.2.2).1⟩

/-- Claim C7 (counterexample).  The claim says a cancelled request's eventual
resolution changes no part of the state and is never surfaced as a
user-visible error.  On the code, resolving the epoch-1 hn request after a
second `refreshAll` (which aborted it) lands in the generic catch clause:
before the delivery the hn column has no error, after it the error is the
user-visible "Could not load content. Try Refresh." and the store changed. -/
theorem cancelled_surfaced_cex :
    (colAt sRef2.store "col_hn").error = "" ∧
    (colAt (stepE sRef2 (.resolveE 0 (.ok [sampleA] 1 none true))).store "col_hn").error
      = "Could not load content. Try Refresh." ∧
    (stepE sRef2 (.resolveE 0 (.ok [sampleA] 1 none true))).store ≠ sRef2.store := by
  decide

/-- Claim C7 (amended).  A cancelled (stale-signal) request's resolution never
adds an item to any buffer and leaves every other column's record untouched,
but it is not a complete no-op and not silent: it rewrites its own column's
record with `loading := false` and the type's generic catch-clause message —
which is nonempty, hence rendered by the `ErrorBanner` — because the abort
rejection is handled by the same catch clause as an upstream failure. -/
theorem cancelled_resolution_amended (s : AppState) (r : Request) (o : Outcome)
    (h : rejectedByAbort r.sig s.epoch = true) :
    (∀ cid, itemsAt (applyResolution s r o).store cid = itemsAt s.store cid) ∧
    colAt (applyResolution s r o).store r.colId
      = { colAt s.store r.colId with loading := false, error := errMsg (kindType r.kind) } ∧
    (∀ cid, cid ≠ r.colId → colAt (applyResolution s r o).store cid = colAt s.store cid) ∧
    errMsg (kindType r.kind) ≠ "" := by
  rw [applyResolution_rejected s r o h]
  refine ⟨?_, ?_, ?_, ?_⟩
  · intro cid
    by_cases hc : cid = r.colId
    · subst hc
      simp [itemsAt, colAt_setCol_self]
    · simp [itemsAt, colAt_setCol_ne _ _ _ _ hc]
  · simp [colAt_setCol_self]
  · intro cid hc
    simp [colAt_setCol_ne _ _ _ _ hc]
  · cases hk : kindType r.kind <;> simp [errMsg]

/-- Witness for the amended C7: the epoch-1 request aborted by the second
refresh resolves into the generic error on its own column, with every buffer
unchanged. -/
theorem cancelled_resolution_amended_check :
    rejectedByAbort reqEpoch1.sig sRef2.epoch = true ∧
    itemsAt (applyResolution sRef2 reqEpoch1 (.ok [sampleA] 1 none true)).store "col_reddit"
      = itemsAt sRef2.store "col_reddit" ∧
    colAt (applyResolution sRef2 reqEpoch1 (.ok [sampleA] 1 none true)).store "col_hn"
      = { colAt sRef2.store "col_hn" with
            loading := false, error := errMsg (kindType reqEpoch1.kind) } :=
  ⟨by decide,
   (cancelled_resolution_amended sRef2 reqEpoch1 (.ok [sampleA] 1 none true) (by decide)).1
     "col_reddit",
   (cancelled_resolution_amended sRef2 reqEpoch1 (.ok [sampleA] 1 none true) (by decide)).2.1⟩

/-- Claim C8 (counterexample).  The claim says deactivating an instance
cancels its in-flight request and discards its eventual result.  On the code:
dispatch a load-more on the hn column of `sPag`, remove the column, then let
the request resolve — the request was still pending after removal, and its
resolution mutates the orphaned store record of the removed instance,
appending the late page so its buffer becomes `[sampleA, sampleB]`. -/
theorem remove_no_cancel_cex :
    (removeColumn (loadMoreClick sPag "c") "c").pending
      = [⟨"c", RKind.hn 1, Mode.more, some 1⟩] ∧
    itemsAt (stepE (removeColumn (loadMoreClick sPag "c") "c")
        (.resolveE 0 (.ok [sampleB] 2 none true))).store "c" = [sampleA, sampleB] ∧
    (stepE (removeColumn (loadMoreClick sPag "c") "c")
        (.resolveE 0 (.ok [sampleB] 2 none true))).store
      ≠ (removeColumn (loadMoreClick sPag "c") "c").store := by
  decide

/-- Claim C8 (amended).  `removeColumn` only removes the column from the
column list: the store record, the pending requests and the abort controller
are untouched, so nothing is cancelled; after removal the column id no longer
resolves in the column list, and a later successful resolution of the
in-flight load-more request does not re-add the column, but it does mutate
the orphaned store record, appending the late items to the removed
instance's buffer. -/
theorem remove_no_cancel_amended (s : AppState) (cid : String) (p : Nat)
    (its : List Item) (np : Nat) (na : Option String) (hm : Bool) :
    (removeColumn s cid).store = s.store ∧
    (removeColumn s cid).pending = s.pending ∧
    (removeColumn s cid).epoch = s.epoch ∧
    lookupType (removeColumn s cid).columns cid = none ∧
    (applyResolution (removeColumn s cid)
        ⟨cid, RKind.hn p, Mode.more, sigOf s.epoch⟩ (.ok its np na hm)).columns
      = (removeColumn s cid).columns ∧
    itemsAt (applyResolution (removeColumn s cid)
        ⟨cid, RKind.hn p, Mode.more, sigOf s.epoch⟩ (.ok its np na hm)).store cid
      = itemsAt s.store cid ++ its := by
  refine ⟨rfl, rfl, rfl, lookupType_removed s.columns cid, columns_applyResolution _ _ _, ?_⟩
  have hrej : rejectedByAbort (sigOf s.epoch) (removeColumn s cid).epoch = false :=
    rejected_sigOf s.epoch
  rw [applyResolution_ok_hn (removeColumn s cid) cid p Mode.more (sigOf s.epoch) hrej its np na hm]
  simp [itemsAt, colAt_setCol_self]
  rfl

/-- Reddit item whose only match for the filter text "startups" is its
`subreddit` field — a field outside the spec's `title + summary + author +
tags` list. -/
def itSub : Item :=
  { id := "rd_9", source := "reddit", title := "launch", subreddit := "r/startups" }

/-- One-column store holding only `itSub`. -/
def cexStore : Store := [("c", { items := [itSub], hasMore := true })]

/-- Claim C9 (counterexample).  The claim says filter membership is decided by
the lower-cased concatenation of `title + summary + author + tags` and that
no other item field affects membership.  On the code, `visibleByColumn`
retains `itSub` for the filter "startups" (first conjunct) even though the
spec's own criterion rejects it (second conjunct): the match comes from the
`subreddit` field, which the code-side haystack includes. -/
theorem view_filter_fields_cex :
    visibleByColumn [("c", ColType.reddit)] cexStore "startups" = [("c", [itSub])] ∧
    specMatches "startups" itSub = false := by
  decide

/-- Claim C9 (amended).  The view projection is a pure, deterministic
function of the column list, the store and the filter text.  When the
trimmed, lower-cased filter is empty it returns every instance's buffer
unchanged, in insertion order (first conjunct).  Otherwise each output entry
is an order-stable sublist of its buffer containing exactly the items whose
space-separated join of the non-empty fields among `title`, `summary`,
`author`, `subreddit`, `host` and the space-joined `tags`, lower-cased,
contains the trimmed lower-cased filter text (second conjunct).  In both
cases the output lists one entry per column, in column order (third
conjunct). -/
theorem view_projection_amended (columns : List (String × ColType)) (store : Store)
    (g : String) :
    (toLowerStr (trimJs g) = "" →
      visibleByColumn columns store g = columns.map (fun c => (c.1, itemsAt store c.1))) ∧
    (toLowerStr (trimJs g) ≠ "" →
      ∀ p ∈ visibleByColumn columns store g,
        List.Sublist p.2 (itemsAt store p.1) ∧
        ∀ it, it ∈ p.2 ↔
          (it ∈ itemsAt store p.1 ∧ matchesSearch (toLowerStr (trimJs g)) it = true)) ∧
    (visibleByColumn columns store g).map Prod.fst = columns.map Prod.fst := by
  refine ⟨?_, ?_, ?_⟩
  · intro h
    unfold visibleByColumn
    simp [h]
  · intro h p hp
    unfold visibleByColumn at hp
    simp only [List.mem_map] at hp
    obtain ⟨c, hc, hpc⟩ := hp
    rw [if_neg h] at hpc
    subst hpc
    constructor
    · exact List.filter_sublist _
    · intro it
      simp [List.mem_filter]
  · unfold visibleByColumn
    simp

/-- Witness for the amended C9: the empty filter passes `cexStore`'s buffer
through unchanged, and the filter "LAUNCH" (trimmed and lower-cased to
"launch") characterizes membership of the single output entry. -/
theorem view_projection_amended_check :
    (toLowerStr (trimJs "") = "" ∧
      visibleByColumn [("c", ColType.reddit)] cexStore ""
        = ([("c", ColType.reddit)]).map (fun c => (c.1, itemsAt cexStore c.1))) ∧
    (toLowerStr (trimJs " LAUNCH ") ≠ "" ∧
      ("c", [itSub]) ∈ visibleByColumn [("c", ColType.reddit)] cexStore " LAUNCH " ∧
      List.Sublist [itSub] (itemsAt cexStore "c") ∧
      (itSub ∈ [itSub] ↔
        (itSub ∈ itemsAt cexStore "c" ∧
          matchesSearch (toLowerStr (trimJs " LAUNCH ")) itSub = true))) :=
  ⟨⟨by decide, (view_projection_amended [("c", ColType.reddit)] cexStore "").1 (by decide)⟩,
   ⟨by decide, by decide,
    ((view_projection_amended [("c", ColType.reddit)] cexStore " LAUNCH ").2.1 (by decide)
      ("c", [itSub]) (by decide)).1,
    ((view_projection_amended [("c", ColType.reddit)] cexStore " LAUNCH ").2.1 (by decide)
      ("c", [itSub]) (by decide)).2 itSub⟩⟩

/-- Claim C10.  URL validation is total and safe: `safeUrl` always returns
(modelling that `new URL` failures are caught), its result is the empty
string or a syntactically valid absolute URL (first conjunct); the upstream
string "not a url" normalizes to the empty string (second conjunct); and
every unified item built by the four adapters' normalizers has `url` and
`imageUrl` fields that are empty or valid absolute URLs, never a raw
unvalidated string (remaining conjuncts). -/
theorem url_validation_total :
    (∀ u, safeUrl u = "" ∨ validAbsUrl (safeUrl u) = true) ∧
    safeUrl "not a url" = "" ∧
    (∀ h : RawHit, urlFieldsOk (hnItemOfHit h)) ∧
    (∀ p : RawPost, urlFieldsOk (redditItemOfPost p)) ∧
    (∀ d : RawApod, urlFieldsOk (nasaItemOf d)) ∧
    (∀ q : RawQuote, urlFieldsOk (quoteItemOf q)) := by
  have hjs : ∀ v fb : String, (v = "" ∨ validAbsUrl v = true) →
      (fb = "" ∨ validAbsUrl fb = true) → (jsOr v fb = "" ∨ validAbsUrl (jsOr v fb) = true) := by
    intro v fb hv hfb
    unfold jsOr
    by_cases h : v = ""
    · simpa [h] using hfb
    · simpa [h] using hv
  refine ⟨safeUrl_ok, by decide, ?_, ?_, ?_, ?_⟩
  · intro h
    unfold hnItemOfHit urlFieldsOk
    exact ⟨safeUrl_ok _, Or.inl rfl⟩
  · intro p
    unfold redditItemOfPost urlFieldsOk
    refine ⟨safeUrl_ok _, ?_⟩
    exact hjs _ _ (safeUrl_ok _) (Or.inl rfl)
  · intro d
    unfold nasaItemOf urlFieldsOk
    constructor
    · exact hjs _ _ (safeUrl_ok _) (Or.inr (by decide))
    · by_cases hm : d.media_type = "image"
      · simp only [hm, if_pos]
        exact hjs _ _ (safeUrl_ok _) (safeUrl_ok _)
      · simp [hm]
  · intro q
    unfold quoteItemOf urlFieldsOk
    exact ⟨Or.inl rfl, Or.inl rfl⟩

end TechPulse
